import Mathlib

/-!
Shallow embedding of the two demo programs of this repository:
the abstract-factory demo (src/abstract_factory/main.cpp) and the
builder demo (src/builder/main.cpp).

Console output is modelled as a list of the printed strings, process
termination as a natural-number exit code, and each concrete product
object carries the family (platform) of the concrete class it was
instantiated from, so that statements about which product families a
run creates can be made.
-/

/-- The concrete product family a created object belongs to: the
platform of the concrete class that was instantiated. -/
inductive ProductFamily
  | Windows
  | MacOS
deriving DecidableEq, Fintype

/-- At most one concrete product family occurs among the products
created in a run. -/
def oneFamilyOnly (created : List ProductFamily) : Prop :=
  ∀ f g, f ∈ created → g ∈ created → f = g

instance oneFamilyOnlyDecidable (created : List ProductFamily) :
    Decidable (oneFamilyOnly created) :=
  inferInstanceAs (Decidable (∀ f g, f ∈ created → g ∈ created → f = g))

namespace AbstractFactory

/-- The `OS` enumeration of the factory demo. -/
inductive OS
  | Windows
  | MacOS
  | None
deriving DecidableEq, Fintype

/-- State of a `TextEdit` product: its protected `m_text` member.
A `std::string` member is default-constructed empty. -/
structure TextEdit where
  m_text : String
deriving DecidableEq

/-- WindowsButton::buttonClick prints this line. -/
def WindowsButton.buttonClick : String := "Windows button was clicked"

/-- MacOSButton::buttonClick prints this line. -/
def MacOSButton.buttonClick : String := "MacOS button was clicked"

/-- WindowsTextEdit::getText returns `m_text`; the object is unchanged. -/
def WindowsTextEdit.getText (te : TextEdit) : String × TextEdit :=
  (te.m_text, te)

/-- WindowsTextEdit::setText assigns `m_text = text` and prints a line
quoting the stored text. -/
def WindowsTextEdit.setText (_te : TextEdit) (text : String) : TextEdit × String :=
  ({ m_text := text }, "Windows TextEdit text set to " ++ "\x27" ++ text ++ "\x27")

/-- MacOSTextEdit::getText returns `m_text`; the object is unchanged. -/
def MacOSTextEdit.getText (te : TextEdit) : String × TextEdit :=
  (te.m_text, te)

/-- MacOSTextEdit::setText assigns `m_text = text` and prints a line
quoting the stored text. -/
def MacOSTextEdit.setText (_te : TextEdit) (text : String) : TextEdit × String :=
  ({ m_text := text }, "MacOS TextEdit text set to " ++ "\x27" ++ text ++ "\x27")

/-- A button object as the client sees it through the abstract `Button`
interface: the family of its concrete class and the line that
`buttonClick()` prints. -/
structure ButtonObj where
  family : ProductFamily
  buttonClick : String

/-- A text-edit object as the client sees it through the abstract
`TextEdit` interface: the family of its concrete class, its state, and
its virtual `getText` / `setText` methods (each returning the printed
line or the resulting state). -/
structure TextEditObj where
  family : ProductFamily
  state : TextEdit
  getText : TextEdit → String × TextEdit
  setText : TextEdit → String → TextEdit × String

/-- The abstract `WindowApplication` factory interface. -/
structure WindowApplication where
  createButton : ButtonObj
  createTextEdit : TextEditObj

/-- WindowsWindowApplication creates a WindowsButton and a
WindowsTextEdit. -/
def WindowsWindowApplication : WindowApplication where
  createButton :=
    { family := ProductFamily.Windows
      buttonClick := WindowsButton.buttonClick }
  createTextEdit :=
    { family := ProductFamily.Windows
      state := { m_text := "" }
      getText := WindowsTextEdit.getText
      setText := WindowsTextEdit.setText }

/-- MacOSWindowApplication creates a MacOSButton and a MacOSTextEdit. -/
def MacOSWindowApplication : WindowApplication where
  createButton :=
    { family := ProductFamily.MacOS
      buttonClick := MacOSButton.buttonClick }
  createTextEdit :=
    { family := ProductFamily.MacOS
      state := { m_text := "" }
      getText := MacOSTextEdit.getText
      setText := MacOSTextEdit.setText }

/-- client_code(WindowApplication*): creates a button and a text edit
from the factory, clicks the button, sets the text to "Hello OS" and
prints the text read back.  Returns the printed lines and the families
of the two products it created. -/
def client_code (application : WindowApplication) : List String × List ProductFamily :=
  let button := application.createButton
  let textEdit := application.createTextEdit
  let clickLine := button.buttonClick
  let r1 := textEdit.setText textEdit.state "Hello OS"
  let r2 := textEdit.getText r1.1
  ([clickLine, r1.2, "Text edit have text -> " ++ r2.1],
   [button.family, textEdit.family])

/-- Observable result of a run of the factory demo. -/
structure RunResult where
  output : List String
  exitCode : Nat
  created : List ProductFamily
deriving DecidableEq

/-- PLATFORM_WINDOWS is defined to 1 in the source, so the configured
selector is `OS.Windows`. -/
def USED_API : OS := OS.Windows

/-- main() of the factory demo, parameterised by the value of the
platform selector: the switch picks the factory (or, for `OS.None`,
prints a diagnostic and returns 1 before any product is created). -/
def mainRun (usedApi : OS) : RunResult :=
  match usedApi with
  | OS.Windows =>
    let r := client_code WindowsWindowApplication
    { output := r.1, exitCode := 0, created := r.2 }
  | OS.MacOS =>
    let r := client_code MacOSWindowApplication
    { output := r.1, exitCode := 0, created := r.2 }
  | OS.None =>
    { output := ["None of platforms is chosen!"], exitCode := 1, created := [] }

end AbstractFactory

namespace BuilderDemo

/-- A MacOSWindow: its accumulated `structure` string (named
`structure_` since `structure` is a Lean keyword). -/
structure MacOSWindow where
  structure_ : String
deriving DecidableEq

/-- MacOSWindow::printStructure prints the accumulated string. -/
def MacOSWindow.printStructure (w : MacOSWindow) : String := w.structure_

/-- A `MacOSWindow` instance belongs to the MacOS family. -/
def MacOSWindow.family (_w : MacOSWindow) : ProductFamily := ProductFamily.MacOS

/-- A WindowsWindow: its accumulated `structure` string. -/
structure WindowsWindow where
  structure_ : String
deriving DecidableEq

/-- WindowsWindow::printStructure prints the accumulated string. -/
def WindowsWindow.printStructure (w : WindowsWindow) : String := w.structure_

/-- A `WindowsWindow` instance belongs to the Windows family. -/
def WindowsWindow.family (_w : WindowsWindow) : ProductFamily := ProductFamily.Windows

/-- State of a MacOSWindowBuilder: the window under construction. -/
structure MacOSWindowBuilder where
  window : MacOSWindow
deriving DecidableEq

/-- MacOSWindowBuilder::reset replaces the window with a new one,
whose `structure` string is default-constructed empty. -/
def MacOSWindowBuilder.reset (_b : MacOSWindowBuilder) : MacOSWindowBuilder :=
  { window := { structure_ := "" } }

/-- The MacOSWindowBuilder constructor calls reset(), so a new builder
holds a new empty window. -/
def MacOSWindowBuilder.new : MacOSWindowBuilder :=
  { window := { structure_ := "" } }

def MacOSWindowBuilder.createNativeWindow (b : MacOSWindowBuilder) : MacOSWindowBuilder :=
  { window := { structure_ := b.window.structure_ ++ "Window: Standard MacOS; " } }

def MacOSWindowBuilder.addMenubar (b : MacOSWindowBuilder) : MacOSWindowBuilder :=
  { window := { structure_ := b.window.structure_ ++ "Menubar: MacOS default; " } }

def MacOSWindowBuilder.setTitle (b : MacOSWindowBuilder) (title : String) : MacOSWindowBuilder :=
  { window := { structure_ := b.window.structure_ ++ ("Window title: " ++ title ++ ";") } }

def MacOSWindowBuilder.setDefaultBackgroundColor (b : MacOSWindowBuilder) : MacOSWindowBuilder :=
  { window := { structure_ := b.window.structure_ ++ "Background color: MacOS default; " } }

def MacOSWindowBuilder.getWindow (b : MacOSWindowBuilder) : MacOSWindow := b.window

/-- State of a WindowsWindowBuilder: the window under construction. -/
structure WindowsWindowBuilder where
  window : WindowsWindow
deriving DecidableEq

/-- WindowsWindowBuilder::reset replaces the window with a new one,
whose `structure` string is default-constructed empty. -/
def WindowsWindowBuilder.reset (_b : WindowsWindowBuilder) : WindowsWindowBuilder :=
  { window := { structure_ := "" } }

/-- The WindowsWindowBuilder constructor calls reset(). -/
def WindowsWindowBuilder.new : WindowsWindowBuilder :=
  { window := { structure_ := "" } }

def WindowsWindowBuilder.createNativeWindow (b : WindowsWindowBuilder) : WindowsWindowBuilder :=
  { window := { structure_ := b.window.structure_ ++ "Window: Standard Windows; " } }

def WindowsWindowBuilder.addMenubar (b : WindowsWindowBuilder) : WindowsWindowBuilder :=
  { window := { structure_ := b.window.structure_ ++ "Menubar: Windows default; " } }

def WindowsWindowBuilder.setTitle (b : WindowsWindowBuilder) (title : String) : WindowsWindowBuilder :=
  { window := { structure_ := b.window.structure_ ++ ("Window title: " ++ title ++ ";") } }

def WindowsWindowBuilder.setDefaultBackgroundColor (b : WindowsWindowBuilder) : WindowsWindowBuilder :=
  { window := { structure_ := b.window.structure_ ++ "Background color: Windows default; " } }

def WindowsWindowBuilder.getWindow (b : WindowsWindowBuilder) : WindowsWindow := b.window

/-- The abstract `WindowBuilder` interface (the four pure virtual
steps), over a builder state `σ`.  The director holds a pointer of
this abstract type. -/
structure WindowBuilder (σ : Type) where
  createNativeWindow : σ → σ
  addMenubar : σ → σ
  setTitle : σ → String → σ
  setDefaultBackgroundColor : σ → σ

/-- The virtual-dispatch table of a `MacOSWindowBuilder`. -/
def macBuilderOps : WindowBuilder MacOSWindowBuilder where
  createNativeWindow := MacOSWindowBuilder.createNativeWindow
  addMenubar := MacOSWindowBuilder.addMenubar
  setTitle := MacOSWindowBuilder.setTitle
  setDefaultBackgroundColor := MacOSWindowBuilder.setDefaultBackgroundColor

/-- The virtual-dispatch table of a `WindowsWindowBuilder`. -/
def winBuilderOps : WindowBuilder WindowsWindowBuilder where
  createNativeWindow := WindowsWindowBuilder.createNativeWindow
  addMenubar := WindowsWindowBuilder.addMenubar
  setTitle := WindowsWindowBuilder.setTitle
  setDefaultBackgroundColor := WindowsWindowBuilder.setDefaultBackgroundColor

/-- WindowCreationManager::createDefaultWindow drives the four steps,
in order, with the fixed title "New Window". -/
def WindowCreationManager.createDefaultWindow {σ : Type}
    (vb : WindowBuilder σ) (s : σ) : σ :=
  vb.setDefaultBackgroundColor (vb.setTitle (vb.addMenubar (vb.createNativeWindow s)) "New Window")

/-- WindowCreationManager::createWindowWithTitle drives the four steps,
in order, with the given title. -/
def WindowCreationManager.createWindowWithTitle {σ : Type}
    (vb : WindowBuilder σ) (title : String) (s : σ) : σ :=
  vb.setDefaultBackgroundColor (vb.setTitle (vb.addMenubar (vb.createNativeWindow s)) title)

/-- Names of the four builder steps, used to record the exact call
sequence a director recipe makes. -/
inductive Step
  | createNativeWindow
  | addMenubar
  | setTitle (title : String)
  | setDefaultBackgroundColor
deriving DecidableEq

/-- An instrumented implementation of the abstract interface whose
state is the list of steps called so far. -/
def traceBuilder : WindowBuilder (List Step) where
  createNativeWindow := fun s => s ++ [Step.createNativeWindow]
  addMenubar := fun s => s ++ [Step.addMenubar]
  setTitle := fun s title => s ++ [Step.setTitle title]
  setDefaultBackgroundColor := fun s => s ++ [Step.setDefaultBackgroundColor]

/-- client_code(WindowCreationManager*) of the builder demo: first a
WindowsWindowBuilder builds the default window and, after a reset, a
window titled "New title", each printed; then a MacOSWindowBuilder does
the same.  Returns the printed lines and the families of the windows the
client obtained from the builders. -/
def client_code : List String × List ProductFamily :=
  let builder := WindowsWindowBuilder.new
  let b1 := WindowCreationManager.createDefaultWindow winBuilderOps builder
  let window1 := b1.getWindow
  let b2 := b1.reset
  let b3 := WindowCreationManager.createWindowWithTitle winBuilderOps "New title" b2
  let window2 := b3.getWindow
  let mbuilder := MacOSWindowBuilder.new
  let m1 := WindowCreationManager.createDefaultWindow macBuilderOps mbuilder
  let mwindow1 := m1.getWindow
  let m2 := m1.reset
  let m3 := WindowCreationManager.createWindowWithTitle macBuilderOps "New title" m2
  let mwindow2 := m3.getWindow
  ([window1.printStructure, window2.printStructure,
    mwindow1.printStructure, mwindow2.printStructure],
   [window1.family, window2.family, mwindow1.family, mwindow2.family])

/-- main() of the builder demo: runs client_code and returns 0. -/
def mainRun : List String × Nat := (client_code.1, 0)

end BuilderDemo

namespace AbstractFactory

/-- C1: with the Windows selector, the factory demo's run prints the
Windows-named identifiers ("Windows button was clicked",
"Windows TextEdit text set to 'Hello OS'") followed by the read-back
line, creates a Windows button and a Windows text edit, and exits 0;
likewise with the MacOS selector and MacOS identifiers. -/
theorem factory_matches_selected_platform :
    mainRun OS.Windows =
      { output := ["Windows button was clicked",
                   "Windows TextEdit text set to \x27Hello OS\x27",
                   "Text edit have text -> Hello OS"],
        exitCode := 0,
        created := [ProductFamily.Windows, ProductFamily.Windows] }
  ∧ mainRun OS.MacOS =
      { output := ["MacOS button was clicked",
                   "MacOS TextEdit text set to \x27Hello OS\x27",
                   "Text edit have text -> Hello OS"],
        exitCode := 0,
        created := [ProductFamily.MacOS, ProductFamily.MacOS] } :=
  ⟨rfl, rfl⟩

/-- C2: with the None selector, the factory demo prints exactly the
diagnostic "None of platforms is chosen!", exits with code 1, and
creates no Button or TextEdit product at all (client_code never runs). -/
theorem none_selector_diagnostic_exit_one :
    mainRun OS.None =
      { output := ["None of platforms is chosen!"],
        exitCode := 1,
        created := [] } :=
  rfl

/-- C7: on both platforms, getText returns the stored text and leaves
the TextEdit unchanged, so a second getText without an intervening
setText returns the same string. -/
theorem getText_idempotent_pure :
    ∀ te : TextEdit,
      (WindowsTextEdit.getText te).2 = te
    ∧ (WindowsTextEdit.getText ((WindowsTextEdit.getText te).2)).1
        = (WindowsTextEdit.getText te).1
    ∧ (MacOSTextEdit.getText te).2 = te
    ∧ (MacOSTextEdit.getText ((MacOSTextEdit.getText te).2)).1
        = (MacOSTextEdit.getText te).1 :=
  fun _te => ⟨rfl, rfl, rfl, rfl⟩

/-- C9: on both platforms and for every string s and prior state,
setText s followed by getText returns exactly s: the stored text
round-trips with no validation or transformation. -/
theorem setText_getText_roundtrip :
    ∀ (te : TextEdit) (s : String),
      (WindowsTextEdit.getText (WindowsTextEdit.setText te s).1).1 = s
    ∧ (MacOSTextEdit.getText (MacOSTextEdit.setText te s).1).1 = s :=
  fun _te _s => ⟨rfl, rfl⟩

/-- C10: a TextEdit freshly returned by createTextEdit of either
concrete factory has an empty m_text, so getText before any setText
returns the empty string. -/
theorem fresh_textEdit_empty :
    (WindowsWindowApplication.createTextEdit.getText
        WindowsWindowApplication.createTextEdit.state).1 = ""
  ∧ (MacOSWindowApplication.createTextEdit.getText
        MacOSWindowApplication.createTextEdit.state).1 = "" :=
  ⟨rfl, rfl⟩

end AbstractFactory

namespace BuilderDemo

/-- C3: on a freshly reset builder of either platform,
createDefaultWindow followed by printStructure yields the four
platform fragments in the order [native window, menubar, title,
background], with the fixed default title "New Window" embedded in the
title fragment. -/
theorem createDefaultWindow_fresh_structure :
    (∀ b : WindowsWindowBuilder,
      (WindowCreationManager.createDefaultWindow winBuilderOps b.reset).getWindow.printStructure
        = "Window: Standard Windows; " ++ "Menubar: Windows default; "
          ++ ("Window title: " ++ "New Window" ++ ";")
          ++ "Background color: Windows default; ")
  ∧ (∀ b : MacOSWindowBuilder,
      (WindowCreationManager.createDefaultWindow macBuilderOps b.reset).getWindow.printStructure
        = "Window: Standard MacOS; " ++ "Menubar: MacOS default; "
          ++ ("Window title: " ++ "New Window" ++ ";")
          ++ "Background color: MacOS default; ") :=
  ⟨fun _b => rfl, fun _b => rfl⟩

/-- C4: the two director recipes invoke the same four steps in the same
order, varying only the title: on the step-recording builder,
createDefaultWindow records [createNativeWindow, addMenubar,
setTitle "New Window", setDefaultBackgroundColor] and
createWindowWithTitle records the same sequence with its title; and on
every abstract builder and state, createDefaultWindow equals
createWindowWithTitle "New Window". -/
theorem recipes_same_steps :
    (∀ (σ : Type) (vb : WindowBuilder σ) (s : σ),
      WindowCreationManager.createDefaultWindow vb s
        = WindowCreationManager.createWindowWithTitle vb "New Window" s)
  ∧ WindowCreationManager.createDefaultWindow traceBuilder []
      = [Step.createNativeWindow, Step.addMenubar,
         Step.setTitle "New Window", Step.setDefaultBackgroundColor]
  ∧ (∀ title : String,
      WindowCreationManager.createWindowWithTitle traceBuilder title []
        = [Step.createNativeWindow, Step.addMenubar,
           Step.setTitle title, Step.setDefaultBackgroundColor]) :=
  ⟨fun _σ _vb _s => rfl, rfl, fun _title => rfl⟩

/-- C5: for every prior builder state on either platform, reset followed
by createWindowWithTitle "New title" and printStructure yields exactly
the fresh description containing "New title" — a constant independent of
the prior state, so no fragment of any prior build remains. -/
theorem reset_discards_state :
    (∀ b : WindowsWindowBuilder,
      (WindowCreationManager.createWindowWithTitle winBuilderOps "New title" b.reset).getWindow.printStructure
        = "Window: Standard Windows; Menubar: Windows default; Window title: New title;Background color: Windows default; ")
  ∧ (∀ b : MacOSWindowBuilder,
      (WindowCreationManager.createWindowWithTitle macBuilderOps "New title" b.reset).getWindow.printStructure
        = "Window: Standard MacOS; Menubar: MacOS default; Window title: New title;Background color: MacOS default; ") :=
  ⟨fun _b => rfl, fun _b => rfl⟩

/-- C6: on either platform, each of the four steps appends its
platform-specific fragment, leaving everything previously accumulated
unchanged in front of it; and a step taken after getWindow without an
intervening reset keeps accumulating onto that same product. -/
theorem steps_accumulate :
    ∀ (wb : WindowsWindowBuilder) (mb : MacOSWindowBuilder) (title : String),
      (wb.createNativeWindow).window.structure_
        = wb.window.structure_ ++ "Window: Standard Windows; "
    ∧ (wb.addMenubar).window.structure_
        = wb.window.structure_ ++ "Menubar: Windows default; "
    ∧ (wb.setTitle title).window.structure_
        = wb.window.structure_ ++ ("Window title: " ++ title ++ ";")
    ∧ (wb.setDefaultBackgroundColor).window.structure_
        = wb.window.structure_ ++ "Background color: Windows default; "
    ∧ (wb.createNativeWindow).getWindow.structure_
        = wb.getWindow.structure_ ++ "Window: Standard Windows; "
    ∧ (mb.createNativeWindow).window.structure_
        = mb.window.structure_ ++ "Window: Standard MacOS; "
    ∧ (mb.addMenubar).window.structure_
        = mb.window.structure_ ++ "Menubar: MacOS default; "
    ∧ (mb.setTitle title).window.structure_
        = mb.window.structure_ ++ ("Window title: " ++ title ++ ";")
    ∧ (mb.setDefaultBackgroundColor).window.structure_
        = mb.window.structure_ ++ "Background color: MacOS default; "
    ∧ (mb.createNativeWindow).getWindow.structure_
        = mb.getWindow.structure_ ++ "Window: Standard MacOS; " :=
  fun _wb _mb _title => ⟨rfl, rfl, rfl, rfl, rfl, rfl, rfl, rfl, rfl, rfl⟩

end BuilderDemo

/-- C8 counterexample: it is not the case that every run of either demo
keeps exactly one concrete product family active: the factory demo's
configured run does, but the builder demo's single run creates windows
of both the Windows family and the MacOS family. -/
theorem one_family_per_run_fails :
    ¬ (oneFamilyOnly (AbstractFactory.mainRun AbstractFactory.USED_API).created
       ∧ oneFamilyOnly BuilderDemo.client_code.2) := by
  intro h
  have hW : ProductFamily.Windows ∈ BuilderDemo.client_code.2 := by decide
  have hM : ProductFamily.MacOS ∈ BuilderDemo.client_code.2 := by decide
  exact absurd (h.2 ProductFamily.Windows ProductFamily.MacOS hW hM) (by decide)

/-- C8 amended: in the factory demo exactly one concrete product family
is active per run for every selector value, the family being fixed by
the configuration; the builder demo's run, whose client still works only
through the abstract builder interface, exercises the Windows family and
then the MacOS family in sequence. -/
theorem one_family_per_run_amended :
    (∀ usedApi : AbstractFactory.OS,
      oneFamilyOnly (AbstractFactory.mainRun usedApi).created)
  ∧ BuilderDemo.client_code.2
      = [ProductFamily.Windows, ProductFamily.Windows,
         ProductFamily.MacOS, ProductFamily.MacOS] :=
  ⟨by decide, rfl⟩
